import Mathlib

/-
Verification of the answer-grading subsystem of the `affordance` repository
(src/tester.py together with the record types of src/data_models.py).

The grading subsystem consists of two functions:
  - `safe_import(name, *args, **kwargs)` — the Import Guard: consults a fixed
    denylist of six module names and raises ImportError for a blocked name,
    otherwise delegates to the real `__import__` mechanism;
  - `generate_result(answer, test)` — the Grader: builds a fresh namespace whose
    builtins have `safe_import` installed as the `__import__` hook, executes the
    answer's code string and then the test's code string in that namespace, and
    classifies the outcome.  In the source BOTH `except AssertionError` and
    `except Exception` return `False`, so every Exception-level error raised by
    the graded code is converted into the boolean `False`.

The embedding below models the graded code strings as a small statement
language (assignment, equality assertion, module-import of a possibly dotted
name) over integer expressions, which covers every program appearing in the
specification's scenarios and in the repository's own tests; a code string that
does not compile is modelled by the `Code.invalid` constructor, whose execution
fails with a compile-time error (Python's SyntaxError, the spec's
SyntaxInvalid).  The real `__import__` mechanism is an explicit parameter
`realImp : RealImport`, so theorems about delegation quantify over every
possible behaviour of the real importer.
-/

namespace Affordance

/-- Exception values of the Python run, at the granularity the grading code
distinguishes them.  All four constructors model subclasses of Python's
`Exception`, which is the class caught by the grader's catch-all clause:
`assertionError` models AssertionError, `importError n` models the
ImportError raised by the Import Guard for blocked module `n` (the source
formats the name into the message; we carry it structurally), `compileError`
models SyntaxError (the spec's SyntaxInvalid), and `otherError` models every
other runtime exception (the spec's RuntimeFault). -/
inductive PyErr where
  | assertionError (msg : String)
  | importError (modName : String)
  | compileError (src : String)
  | otherError (msg : String)
  deriving DecidableEq, Repr

/-- Values stored in the execution namespace: integers, imported modules, and
the `__builtins__` mapping installed by the grader. -/
inductive Value where
  | int (n : Int)
  | module (modName : String)
  | builtinsDict
  deriving DecidableEq, Repr

/-- Integer expressions of the graded code fragment. -/
inductive Expr where
  | lit (n : Int)
  | var (x : String)
  | add (a b : Expr)
  | sub (a b : Expr)
  | mul (a b : Expr)
  | div (a b : Expr)
  deriving DecidableEq, Repr

/-- Statements of the graded code fragment: assignment, equality assertion
(`assert a == b`), and the module-import statement for a possibly dotted
module name. -/
inductive Stmt where
  | assign (x : String) (e : Expr)
  | assertEq (a b : Expr)
  | impMod (modName : String)
  deriving DecidableEq, Repr

/-- A code string as the grader sees it: either it fails to compile
(`invalid`, carrying the offending source text), or it compiles to a list of
statements. -/
inductive Code where
  | invalid (src : String)
  | valid (stmts : List Stmt)
  deriving DecidableEq, Repr

/-- The execution namespace: the dict Python's `exec` runs in, as an
insertion-ordered association list (later bindings are pushed to the front and
shadow older ones, matching dict assignment for lookup purposes). -/
abbrev PyNamespace := List (String × Value)

/-- The real `__import__` mechanism, as an explicit environment: given the
requested module name it either returns the imported module value or fails
with its own error (e.g. module-not-found). -/
abbrev RealImport := String → Except PyErr Value

/-- The top-level component of a possibly dotted module name: the characters
before the first dot (`os.path` has top-level name `os`). -/
def topLevelName (s : String) : String :=
  String.mk (s.data.takeWhile (fun c => c ≠ '.'))

/-- The denylist of src/tester.py, lines 5-12: exactly the six module names
whose import the guard refuses. -/
def blockedModules : List String :=
  ["os", "sys", "subprocess", "socket", "urllib", "requests"]

/-- src/tester.py `safe_import`, lines 4-15: if the requested name is in the
denylist, raise ImportError carrying the offending name; otherwise delegate to
the real `__import__` with the same arguments and return whatever it returns.
The membership test of the source is `name in blocked`, i.e. equality of the
full requested name against the six entries. -/
def safe_import (realImp : RealImport) (modName : String) : Except PyErr Value :=
  if modName ∈ blockedModules then
    Except.error (PyErr.importError modName)
  else
    realImp modName

/-- Evaluation of an expression in a namespace.  An unbound variable fails
with NameError; arithmetic on a non-integer value fails with TypeError; both
are RuntimeFault-class errors, hence `otherError`.  Division by zero fails
with ZeroDivisionError, also `otherError`. -/
def evalExpr (ns : PyNamespace) : Expr → Except PyErr Value
  | Expr.lit n => Except.ok (Value.int n)
  | Expr.var x =>
      match ns.lookup x with
      | some v => Except.ok v
      | none => Except.error (PyErr.otherError ("name " ++ x ++ " is not defined"))
  | Expr.add a b => do
      let va ← evalExpr ns a
      let vb ← evalExpr ns b
      match va, vb with
      | Value.int m, Value.int n => Except.ok (Value.int (m + n))
      | _, _ => Except.error (PyErr.otherError "unsupported operand type")
  | Expr.sub a b => do
      let va ← evalExpr ns a
      let vb ← evalExpr ns b
      match va, vb with
      | Value.int m, Value.int n => Except.ok (Value.int (m - n))
      | _, _ => Except.error (PyErr.otherError "unsupported operand type")
  | Expr.mul a b => do
      let va ← evalExpr ns a
      let vb ← evalExpr ns b
      match va, vb with
      | Value.int m, Value.int n => Except.ok (Value.int (m * n))
      | _, _ => Except.error (PyErr.otherError "unsupported operand type")
  | Expr.div a b => do
      let va ← evalExpr ns a
      let vb ← evalExpr ns b
      match va, vb with
      | Value.int m, Value.int n =>
          if n = 0 then Except.error (PyErr.otherError "division by zero")
          else Except.ok (Value.int (m / n))
      | _, _ => Except.error (PyErr.otherError "unsupported operand type")

/-- Execution of one statement.  The import statement calls the namespace's
installed `__import__` hook — which the grader sets to `safe_import` over the
real mechanism — with the full (possibly dotted) requested name, and on success
binds the top-level module name, as Python's import statement does. -/
def execStmt (realImp : RealImport) (ns : PyNamespace) : Stmt → Except PyErr PyNamespace
  | Stmt.assign x e => do
      let v ← evalExpr ns e
      Except.ok ((x, v) :: ns)
  | Stmt.assertEq a b => do
      let va ← evalExpr ns a
      let vb ← evalExpr ns b
      if va = vb then Except.ok ns
      else Except.error (PyErr.assertionError "assert failed")
  | Stmt.impMod modName => do
      let _ ← safe_import realImp modName
      Except.ok ((topLevelName modName, Value.module (topLevelName modName)) :: ns)

/-- Execution of a statement list, stopping at the first error. -/
def execStmts (realImp : RealImport) (ns : PyNamespace) : List Stmt → Except PyErr PyNamespace
  | [] => Except.ok ns
  | s :: rest => do
      let ns2 ← execStmt realImp ns s
      execStmts realImp ns2 rest

/-- Python's `exec(code, namespace)`: compiling invalid source raises
SyntaxError before anything runs; valid source runs its statements in the
namespace. -/
def execCode (realImp : RealImport) (ns : PyNamespace) : Code → Except PyErr PyNamespace
  | Code.invalid src => Except.error (PyErr.compileError src)
  | Code.valid stmts => execStmts realImp ns stmts

/-- src/data_models.py `Language`: a BaseEntity (name, version, description). -/
structure Language where
  name : String
  version : String
  description : String
  deriving DecidableEq, Repr

/-- src/data_models.py `Library`: a BaseEntity plus its language. -/
structure Library where
  name : String
  version : String
  description : String
  language : Language
  deriving DecidableEq, Repr

/-- src/data_models.py `Model`: a BaseEntity plus its provider. -/
structure Model where
  name : String
  version : String
  description : String
  provider : String
  deriving DecidableEq, Repr

/-- src/data_models.py `Agent`: a BaseEntity plus model, configuration and
scaffolding (both optional). -/
structure Agent where
  name : String
  version : String
  description : String
  model : Model
  configuration : Option String
  scaffolding : Option String
  deriving DecidableEq, Repr

/-- src/data_models.py `Task`: a BaseEntity plus library and content. -/
structure Task where
  name : String
  version : String
  description : String
  library : Library
  content : String
  deriving DecidableEq, Repr

/-- src/data_models.py `Test`, lines 35-37: a BaseEntity plus a back-reference
to its task and the executable test-code string (here: its compiled form). -/
structure Test where
  name : String
  version : String
  description : String
  task : Task
  content : Code
  deriving DecidableEq, Repr

/-- src/data_models.py `Answer`, lines 60-63: a BaseEntity plus the producing
agent, a back-reference to its task, and the executable answer-code string
(here: its compiled form). -/
structure Answer where
  name : String
  version : String
  description : String
  agent : Agent
  task : Task
  content : Code
  deriving DecidableEq, Repr

/-- The namespace the grader constructs at src/tester.py lines 20-23: a brand
new dict whose only entry is `__builtins__`, bound to a copy of the builtins
with `safe_import` installed as the `__import__` hook.  (The hook installation
is reflected in `execStmt`, whose import statement calls `safe_import`.) -/
def freshNamespace : PyNamespace :=
  [("__builtins__", Value.builtinsDict)]

/-- src/tester.py `generate_result`, lines 18-33: build the fresh namespace,
execute the answer's content, then the test's content in the same namespace,
and return True; `except AssertionError` returns False (printing the task
name), and the catch-all `except Exception` ALSO returns False (printing the
error).  Both clauses return a boolean, so in the source no Exception-level
error escapes the call; a propagating exception would be modelled by an
`Except.error` result, which this function never produces. -/
def generate_result (realImp : RealImport) (answer : Answer) (test : Test) :
    Except PyErr Bool :=
  match execCode realImp freshNamespace answer.content with
  | Except.ok ns1 =>
      match execCode realImp ns1 test.content with
      | Except.ok _ => Except.ok true
      | Except.error (PyErr.assertionError _) => Except.ok false
      | Except.error _ => Except.ok false
  | Except.error (PyErr.assertionError _) => Except.ok false
  | Except.error _ => Except.ok false

/-- A grading call together with the post-call state of its two argument
records.  The source never assigns to any field of `answer` or `test` (it only
reads `answer.content`, `test.content` and, in the assertion-failure print,
`answer.task.name`), so the records after the call are the records that were
passed in. -/
def generate_result_call (realImp : RealImport) (answer : Answer) (test : Test) :
    Except PyErr Bool × Answer × Test :=
  (generate_result realImp answer test, answer, test)

/-- A sequence of independent grading calls, in order.  `generate_result`
holds no state of its own across calls — every call rebuilds its namespace
from scratch, line 23 of the source — so the sequence is the per-call results
in order. -/
def runGradingCalls (realImp : RealImport) (calls : List (Answer × Test)) :
    List (Except PyErr Bool) :=
  calls.map (fun p => generate_result realImp p.1 p.2)

/-- A model of the real import mechanism in which every requested module
exists and is returned. -/
def env0 : RealImport :=
  fun modName => Except.ok (Value.module modName)

/-- A model of the real import mechanism in which no requested module exists:
every request fails with the mechanism's own module-not-found error. -/
def envMissing : RealImport :=
  fun modName => Except.error (PyErr.otherError ("No module named " ++ modName))

/-- The fixtures of the repository's own tests (test_code_execution.py). -/
def lang0 : Language := ⟨"Python", "3.13", "Python"⟩

def lib0 : Library := ⟨"TestLib", "1.0.0", "Test", lang0⟩

def model0 : Model := ⟨"test", "1.0.0", "Test", "openai"⟩

def agent0 : Agent := ⟨"test", "1.0.0", "Test", model0, some "test", some "test"⟩

def task0 : Task := ⟨"test", "1.0.0", "Test", lib0, "test"⟩

/-- Answer content `result = 5 + 3` (spec scenario 1). -/
def answerGood : Answer :=
  ⟨"Test Answer", "1.0.0", "Test answer", agent0, task0,
    Code.valid [Stmt.assign "result" (Expr.add (Expr.lit 5) (Expr.lit 3))]⟩

/-- The same correct answer under a different record name and description. -/
def answerGoodRenamed : Answer :=
  ⟨"Other Answer", "2.0.0", "Renamed", agent0, task0,
    Code.valid [Stmt.assign "result" (Expr.add (Expr.lit 5) (Expr.lit 3))]⟩

/-- Answer content `result = 5 + 2` (spec scenario 2, wrong value). -/
def answerWrong : Answer :=
  ⟨"Test Answer", "1.0.0", "Test answer", agent0, task0,
    Code.valid [Stmt.assign "result" (Expr.add (Expr.lit 5) (Expr.lit 2))]⟩

/-- Answer content with lines `import os` and `result = 8` (spec scenario 3). -/
def answerImportOs : Answer :=
  ⟨"Test Answer", "1.0.0", "Test answer", agent0, task0,
    Code.valid [Stmt.impMod "os", Stmt.assign "result" (Expr.lit 8)]⟩

/-- Answer content `result = 5 +`, which does not compile (spec scenario 5). -/
def answerBadParse : Answer :=
  ⟨"Test Answer", "1.0.0", "Test answer", agent0, task0,
    Code.invalid "result = 5 +"⟩

/-- Answer content `result = 1 / 0` (spec scenario 6, division by zero). -/
def answerDivZero : Answer :=
  ⟨"Test Answer", "1.0.0", "Test answer", agent0, task0,
    Code.valid [Stmt.assign "result" (Expr.div (Expr.lit 1) (Expr.lit 0))]⟩

/-- Answer content `secret_var = 42` (the isolation test's first call). -/
def answerSecret : Answer :=
  ⟨"Test Answer 1", "1.0.0", "Test answer", agent0, task0,
    Code.valid [Stmt.assign "secret_var" (Expr.lit 42)]⟩

/-- Answer content `result = 10` (the isolation test's second call). -/
def answerTen : Answer :=
  ⟨"Test Answer 2", "1.0.0", "Test answer", agent0, task0,
    Code.valid [Stmt.assign "result" (Expr.lit 10)]⟩

/-- Test content `assert result == 8`. -/
def testR8 : Test :=
  ⟨"Test", "1.0.0", "Test", task0,
    Code.valid [Stmt.assertEq (Expr.var "result") (Expr.lit 8)]⟩

/-- Test content `assert result == 5`. -/
def testR5 : Test :=
  ⟨"Test", "1.0.0", "Test", task0,
    Code.valid [Stmt.assertEq (Expr.var "result") (Expr.lit 5)]⟩

/-- Test content `assert result == 10`. -/
def testR10 : Test :=
  ⟨"Test 2", "1.0.0", "Test", task0,
    Code.valid [Stmt.assertEq (Expr.var "result") (Expr.lit 10)]⟩

/-- Test content `assert result ==`, which does not compile. -/
def testBadParse : Test :=
  ⟨"Test", "1.0.0", "Test", task0,
    Code.invalid "assert result =="⟩

/-- C1: the claim says a blocked import raises ImportBlocked and propagates out
of the grading call uncaught.  On the source this is false: at the spec's own
scenario 3 (answer `import os` / `result = 8`, test `assert result == 8`) the
guard does raise ImportError, but `generate_result`'s catch-all
`except Exception` clause (src/tester.py lines 31-33) traps it and returns the
boolean False.  The repository's own tests (test_code_execution.py,
test_blocked_os_import and its five siblings) assert the propagation the claim
describes, so the catch-all clause is a bug in the code, not an error of the
claim.  This theorem evaluates the code's actual behaviour at the failing
input. -/
theorem c1_blocked_import_trapped_by_catchall :
    execCode env0 freshNamespace answerImportOs.content =
      Except.error (PyErr.importError "os") ∧
    generate_result env0 answerImportOs testR8 = Except.ok false :=
  ⟨rfl, rfl⟩

/-- C2: the claim says compile-time errors and non-assertion runtime errors
propagate to the caller instead of being returned as False.  On the source
this is false: at the spec's scenarios 5 and 6 (answer `result = 5 +`, answer
`result = 1 / 0`) the catch-all `except Exception` clause (src/tester.py lines
31-33) traps SyntaxError and ZeroDivisionError and returns the boolean False.
The repository's own tests (test_syntax_error_handling,
test_runtime_error_handling) assert the propagation the claim describes, so
the catch-all clause is a bug in the code, not an error of the claim.  This
theorem evaluates the code's actual behaviour at the failing inputs. -/
theorem c2_nonassertion_errors_trapped_by_catchall :
    generate_result env0 answerBadParse testR5 = Except.ok false ∧
    generate_result env0 answerDivZero testR8 = Except.ok false :=
  ⟨rfl, rfl⟩

/-- C3: if the answer's code executes to completion and the test's code then
fails with an assertion failure, the grading call returns the boolean false
and raises nothing (`Except.ok false`, never `Except.error`). -/
theorem c3_assertion_failure_returns_false (realImp : RealImport)
    (a : Answer) (t : Test) (ns1 : PyNamespace) (msg : String)
    (h1 : execCode realImp freshNamespace a.content = Except.ok ns1)
    (h2 : execCode realImp ns1 t.content =
      Except.error (PyErr.assertionError msg)) :
    generate_result realImp a t = Except.ok false := by
  simp only [generate_result, h1, h2]

/-- C3 witness: the spec's scenario 2 — answer `result = 5 + 2`, test
`assert result == 8` — grades to false. -/
theorem c3_witness :
    generate_result env0 answerWrong testR8 = Except.ok false :=
  c3_assertion_failure_returns_false env0 answerWrong testR8
    [("result", Value.int 7), ("__builtins__", Value.builtinsDict)]
    "assert failed" rfl rfl

/-- C4: if both the answer's code and the test's code execute to completion
without raising, the grading call returns the boolean true. -/
theorem c4_success_returns_true (realImp : RealImport)
    (a : Answer) (t : Test) (ns1 ns2 : PyNamespace)
    (h1 : execCode realImp freshNamespace a.content = Except.ok ns1)
    (h2 : execCode realImp ns1 t.content = Except.ok ns2) :
    generate_result realImp a t = Except.ok true := by
  simp only [generate_result, h1, h2]

/-- C4 witness: the spec's scenario 1 — answer `result = 5 + 3`, test
`assert result == 8` — grades to true. -/
theorem c4_witness :
    generate_result env0 answerGood testR8 = Except.ok true :=
  c4_success_returns_true env0 answerGood testR8
    [("result", Value.int 8), ("__builtins__", Value.builtinsDict)]
    [("result", Value.int 8), ("__builtins__", Value.builtinsDict)]
    rfl rfl

/-- C5: the denylist is exactly the six entries os, sys, subprocess, socket,
urllib, requests; a request for one of them fails with the guard's
ImportError carrying that very name; a request for any other name is
delegated to the real import mechanism and returns whatever the real
mechanism returns — its own errors included, unchanged. -/
theorem c5_import_guard_contract (realImp : RealImport) (modName : String) :
    blockedModules = ["os", "sys", "subprocess", "socket", "urllib", "requests"] ∧
    (modName ∈ blockedModules →
      safe_import realImp modName = Except.error (PyErr.importError modName)) ∧
    (modName ∉ blockedModules →
      safe_import realImp modName = realImp modName) := by
  refine ⟨rfl, fun h => ?_, fun h => ?_⟩
  · simp only [safe_import, if_pos h]
  · simp only [safe_import, if_neg h]

/-- C5 witness: `os` is blocked with the name carried in the error; `math` is
delegated and succeeds under an importer that has it; a missing module's
module-not-found error from the real mechanism propagates unchanged. -/
theorem c5_witness :
    safe_import env0 "os" = Except.error (PyErr.importError "os") ∧
    safe_import env0 "math" = env0 "math" ∧
    safe_import envMissing "numpy" = envMissing "numpy" :=
  ⟨(c5_import_guard_contract env0 "os").2.1 (by decide),
   (c5_import_guard_contract env0 "math").2.2 (by decide),
   (c5_import_guard_contract envMissing "numpy").2.2 (by decide)⟩

/-- C6 counterexample: the claim says every requested name whose TOP-LEVEL
component is denylisted is rejected with the guard's ImportError.  False: the
source's membership test is `name in blocked`, equality of the full requested
name, so the dotted name `os.path` — whose top-level component `os` is
denylisted — is delegated to the real mechanism and (under an importer that
has it) succeeds, which also binds `os` in the graded namespace. -/
theorem c6_counterexample :
    ¬ (∀ (realImp : RealImport) (modName : String),
        topLevelName modName ∈ blockedModules →
        ∃ m, safe_import realImp modName = Except.error (PyErr.importError m)) := by
  intro h
  obtain ⟨m, hm⟩ := h env0 "os.path" (by decide)
  have hok : safe_import env0 "os.path" = Except.ok (Value.module "os.path") := rfl
  rw [hok] at hm
  exact Except.noConfusion hm

/-- C6 amended: denylist matching is by exact full-name equality, not by
top-level component — a requested name not literally equal to one of the six
entries is delegated to the real import mechanism, even when its top-level
component (e.g. the `os` of `os.path`) is denylisted. -/
theorem c6_exact_name_match_only (realImp : RealImport) (modName : String)
    (h : modName ∉ blockedModules) :
    safe_import realImp modName = realImp modName := by
  simp only [safe_import, if_neg h]

/-- C6 witness: `os.path` has denylisted top-level component `os`, yet the
guard delegates it to the real mechanism. -/
theorem c6_witness :
    topLevelName "os.path" ∈ blockedModules ∧
    safe_import env0 "os.path" = env0 "os.path" :=
  ⟨by decide, c6_exact_name_match_only env0 "os.path" (by decide)⟩

/-- C7: within one grading call the answer runs first and the test runs second
in the very namespace the answer produced — so every name the answer bound is
visible to the test — and if the answer's execution raises, the call's outcome
does not depend on the test at all (the test is never executed). -/
theorem c7_answer_then_test_same_namespace (realImp : RealImport)
    (a : Answer) (t : Test) :
    (∀ ns1, execCode realImp freshNamespace a.content = Except.ok ns1 →
      generate_result realImp a t =
        match execCode realImp ns1 t.content with
        | Except.ok _ => Except.ok true
        | Except.error _ => Except.ok false) ∧
    (∀ e, execCode realImp freshNamespace a.content = Except.error e →
      ∀ t' : Test, generate_result realImp a t = generate_result realImp a t') ∧
    (∀ ns1 x v, execCode realImp freshNamespace a.content = Except.ok ns1 →
      ns1.lookup x = some v → evalExpr ns1 (Expr.var x) = Except.ok v) := by
  refine ⟨fun ns1 h1 => ?_, fun e h1 t' => ?_, fun ns1 x v _ hx => ?_⟩
  · simp only [generate_result, h1]
    cases hx : execCode realImp ns1 t.content with
    | ok ns2 => rfl
    | error e => cases e <;> rfl
  · simp only [generate_result, h1]
    cases e <;> rfl
  · simp only [evalExpr, hx]

/-- C7 witness: the successful answer `result = 5 + 3` hands the test the
namespace binding `result` to 8; an answer that divides by zero makes the
outcome independent of which test follows; the binding `result = 8` is
readable by the test's expression evaluator. -/
theorem c7_witness :
    (generate_result env0 answerGood testR8 =
      match execCode env0 [("result", Value.int 8), ("__builtins__", Value.builtinsDict)]
          testR8.content with
      | Except.ok _ => Except.ok true
      | Except.error _ => Except.ok false) ∧
    generate_result env0 answerDivZero testR8 = generate_result env0 answerDivZero testR5 ∧
    evalExpr [("result", Value.int 8), ("__builtins__", Value.builtinsDict)]
      (Expr.var "result") = Except.ok (Value.int 8) :=
  ⟨(c7_answer_then_test_same_namespace env0 answerGood testR8).1 _ rfl,
   (c7_answer_then_test_same_namespace env0 answerDivZero testR8).2.1
     (PyErr.otherError "division by zero") rfl testR5,
   (c7_answer_then_test_same_namespace env0 answerGood testR8).2.2 _ "result"
     (Value.int 8) rfl rfl⟩

/-- C8: namespace isolation across calls — in any sequence of grading calls,
the i-th outcome is a function of the i-th (answer, test) pair alone, never of
the calls that ran before it; and the namespace every call starts from binds
nothing but `__builtins__`, so no name bound by an earlier call is visible. -/
theorem c8_fresh_namespace_isolation (realImp : RealImport)
    (calls1 calls2 : List (Answer × Test)) (i : Nat)
    (h : calls1.get? i = calls2.get? i) :
    (runGradingCalls realImp calls1).get? i =
      (runGradingCalls realImp calls2).get? i ∧
    (∀ x, x ≠ "__builtins__" → freshNamespace.lookup x = none) := by
  constructor
  · simp only [List.get?_eq_getElem?] at h ⊢
    simp only [runGradingCalls, List.getElem?_map, h]
  · intro x hx
    have hb : (x == "__builtins__") = false := beq_eq_false_iff_ne.mpr hx
    simp [freshNamespace, List.lookup, hb]

/-- C8 witness: the second call of a two-call sequence grades the same whether
the first call bound `secret_var = 42` or bound `result = 8`. -/
theorem c8_witness :
    (runGradingCalls env0 [(answerSecret, testR8), (answerTen, testR10)]).get? 1 =
      (runGradingCalls env0 [(answerGood, testR8), (answerTen, testR10)]).get? 1 :=
  (c8_fresh_namespace_isolation env0
    [(answerSecret, testR8), (answerTen, testR10)]
    [(answerGood, testR8), (answerTen, testR10)] 1 rfl).1

/-- C9: the grader is total over Exception-level errors of the graded code —
every call returns a boolean (`Except.ok`), and any error raised while
executing the answer or the test, assertion failure or not (blocked imports,
invalid source, runtime faults included), is caught and converted to false by
the `except Exception` catch-all. -/
theorem c9_generate_result_total (realImp : RealImport) (a : Answer) (t : Test) :
    (∃ b : Bool, generate_result realImp a t = Except.ok b) ∧
    (∀ e, execCode realImp freshNamespace a.content = Except.error e →
      generate_result realImp a t = Except.ok false) ∧
    (∀ ns1 e, execCode realImp freshNamespace a.content = Except.ok ns1 →
      execCode realImp ns1 t.content = Except.error e →
      generate_result realImp a t = Except.ok false) := by
  refine ⟨?_, fun e h1 => ?_, fun ns1 e h1 h2 => ?_⟩
  · cases h1 : execCode realImp freshNamespace a.content with
    | error e =>
        refine ⟨false, ?_⟩
        simp only [generate_result, h1]
        cases e <;> rfl
    | ok ns1 =>
        cases h2 : execCode realImp ns1 t.content with
        | error e =>
            refine ⟨false, ?_⟩
            simp only [generate_result, h1, h2]
            cases e <;> rfl
        | ok ns2 =>
            exact ⟨true, by simp only [generate_result, h1, h2]⟩
  · simp only [generate_result, h1]
    cases e <;> rfl
  · simp only [generate_result, h1, h2]
    cases e <;> rfl

/-- C9 witness: a test whose source does not compile is converted to false by
the catch-all, not propagated. -/
theorem c9_witness :
    generate_result env0 answerGood testBadParse = Except.ok false :=
  (c9_generate_result_total env0 answerGood testBadParse).2.2
    [("result", Value.int 8), ("__builtins__", Value.builtinsDict)]
    (PyErr.compileError "assert result ==") rfl rfl

/-- C10: the grading call leaves its two argument records unchanged — the
records after the call are exactly the records passed in, every field
included — and the boolean outcome depends only on the fields the grader
reads: two answers with the same content and two tests with the same content
grade identically, whatever their other fields. -/
theorem c10_inputs_unchanged (realImp : RealImport) (a : Answer) (t : Test) :
    (generate_result_call realImp a t).2.1 = a ∧
    (generate_result_call realImp a t).2.2 = t ∧
    (∀ (a' : Answer) (t' : Test), a'.content = a.content → t'.content = t.content →
      generate_result realImp a' t' = generate_result realImp a t) := by
  refine ⟨rfl, rfl, fun a' t' ha ht => ?_⟩
  simp only [generate_result, ha, ht]

/-- C10 witness: grading `answerGood` leaves the record intact, and renaming
the answer record without touching its content does not change the grade. -/
theorem c10_witness :
    (generate_result_call env0 answerGood testR8).2.1 = answerGood ∧
    generate_result env0 answerGoodRenamed testR8 =
      generate_result env0 answerGood testR8 :=
  ⟨(c10_inputs_unchanged env0 answerGood testR8).1,
   (c10_inputs_unchanged env0 answerGood testR8).2.2 answerGoodRenamed testR8 rfl rfl⟩

end Affordance
